import Mathlib

/-!
Verification of the Teltonika FOTA fleet-synchronization core.

The development shallowly embeds the parts of the integration that the
specification makes claims about:

* `request_` — the error-classification kernel of `TeltonikaFotaApi._request`
  (`api.py`);
* `async_get_all_devices` — the pagination aggregator (`api.py`);
* `update_data` — the refresh round of
  `TeltonikaFotaCoordinator._async_update_data` (`coordinator.py`),
  including the device-map dict comprehension;
* the five mutation service handlers (`services.py`) and the cancel-all
  button press (`button.py`), instrumented with the number of
  `async_request_refresh` calls and the bulk-cancel submissions they make.

Remote calls are modelled as oracles (functions from the request's
parameters to an `Except` outcome); the possibly unbounded pagination loop
is given explicit fuel, and every theorem about it supplies enough fuel for
the loop to exit on its own.
-/

namespace TeltonikaFota

/-- Classified errors defined by the API client (`api.py`):
`TeltonikaFotaAuthError` (401/403) and `TeltonikaFotaConnectionError`
(wrapped `aiohttp.ClientError`); both are subclasses of
`TeltonikaFotaApiError`. -/
inductive FotaError where
  | authError (msg : String)
  | connError (msg : String)
deriving DecidableEq

/-- Outcome of parsing a response body with `await response.json()`: a
parsed value, or the `json.JSONDecodeError` (a `ValueError`) the parse
raises, with its message. -/
inductive JsonParse where
  | ok (v : Nat)
  | jsonDecodeError (msg : String)
deriving DecidableEq

/-- Outcome of one HTTP round trip as `_request` sees it: the transport
raised `aiohttp.ClientError` (network failure, bad content type); the
`ClientTimeout(total=30)` expired, raising `asyncio.TimeoutError`; or a
response arrived with a status code and a body whose JSON parse either
yields a value or raises.  An error status raised by `raise_for_status`
is modelled inside `request_` itself. -/
inductive HttpOutcome where
  | clientError (msg : String)
  | timeout (msg : String)
  | response (status : Nat) (body : JsonParse)
deriving DecidableEq

/-- Errors leaving `_request`: either one of the two classified
`TeltonikaFotaApiError` subclasses, or an exception the
`except aiohttp.ClientError` clause does not catch —
`json.JSONDecodeError` from `response.json()` and `asyncio.TimeoutError`
from the expired `ClientTimeout` — which escapes the client
unclassified. -/
inductive RequestError where
  | classified (e : FotaError)
  | unclassified (msg : String)
deriving DecidableEq

/-- Embedding of `TeltonikaFotaApi._request` (`api.py`): status 401 or 403
raises `TeltonikaFotaAuthError`; `response.raise_for_status()` turns any
other status ≥ 400 into an `aiohttp.ClientResponseError`, which — like
every other `aiohttp.ClientError` — the `except` clause rewraps as
`TeltonikaFotaConnectionError`; otherwise `await response.json()` returns
the parsed body, and when that parse fails its `json.JSONDecodeError` —
like the `asyncio.TimeoutError` of an expired timeout — is not an
`aiohttp.ClientError`, so it propagates out of `_request`
unclassified. -/
def request_ : HttpOutcome → Except RequestError Nat
  | .clientError m =>
    .error (.classified (.connError ("Connection error: " ++ m)))
  | .timeout m => .error (.unclassified ("TimeoutError: " ++ m))
  | .response status body =>
    if status = 401 then
      .error (.classified (.authError "Invalid or expired API token"))
    else if status = 403 then
      .error (.classified (.authError "Access forbidden"))
    else if 400 ≤ status then
      .error (.classified (.connError "Connection error: HTTP status error"))
    else
      match body with
      | .ok b => .ok b
      | .jsonDecodeError m =>
        .error (.unclassified ("JSONDecodeError: " ++ m))

/-- A device record as fetched from the API.  The `"imei"` field may be
absent; when present, `imei` holds `str(d["imei"])`.  The rest of the
record is abstracted into an opaque payload. -/
structure DRec where
  imei : Option String
  payload : Nat
deriving DecidableEq

/-- One raw page dictionary returned by `async_get_devices`: the `"data"`
list and the `meta.last_page` value may each be absent (the source reads
them with `result.get("data", [])` and
`result.get("meta", {}).get("last_page", 1)`). -/
structure PageResult where
  data : Option (List DRec)
  lastPage : Option Nat
deriving DecidableEq

/-- Fuel-indexed embedding of the `while True` loop of
`TeltonikaFotaApi.async_get_all_devices` (`api.py`), started at `page`
with `acc` the devices collected so far.  Returns the list of pages
requested together with the loop's outcome; `none` means the fuel ran out
before the loop exited (never the case under the theorems' hypotheses). -/
def getAllDevicesAux (fetch : Nat → Except FotaError PageResult) :
    Nat → Nat → List DRec → List Nat × Option (Except FotaError (List DRec))
  | 0, _, _ => ([], none)
  | fuel + 1, page, acc =>
    match fetch page with
    | .error e => ([page], some (.error e))
    | .ok r =>
      let acc2 := acc ++ r.data.getD []
      if r.lastPage.getD 1 ≤ page then ([page], some (.ok acc2))
      else
        let rest := getAllDevicesAux fetch fuel (page + 1) acc2
        (page :: rest.1, rest.2)

/-- Entry point of `TeltonikaFotaApi.async_get_all_devices`: run the
pagination loop from page 1 with no devices collected. -/
def async_get_all_devices (fetch : Nat → Except FotaError PageResult)
    (fuel : Nat) : List Nat × Option (Except FotaError (List DRec)) :=
  getAllDevicesAux fetch fuel 1 []

/-- One raw page dictionary returned by `async_get_tasks`, with the same
optional `"data"` and `meta.last_page` shape as a device page; a task is
abstracted into an opaque payload. -/
structure TaskPage where
  data : Option (List Nat)
  lastPage : Option Nat
deriving DecidableEq

/-- Embedding of `TeltonikaFotaData` (`coordinator.py`): the snapshot the
coordinator stores — devices keyed by IMEI (a Python `dict`, modelled as an
insertion-ordered association list), the task list, and the company
statistics (abstracted). -/
structure TeltonikaFotaData where
  devices : List (String × DRec)
  tasks : List Nat
  company_stats : Nat
deriving DecidableEq

/-- Python `dict` insertion: an existing key keeps its position and gets
the new value; a new key is appended at the end. -/
def dictInsert (m : List (String × DRec)) (k : String) (v : DRec) :
    List (String × DRec) :=
  if m.any (fun p => p.1 = k) then
    m.map (fun p => if p.1 = k then (k, v) else p)
  else m ++ [(k, v)]

/-- The dict comprehension
`{str(d["imei"]): d for d in devices if "imei" in d}` of
`_async_update_data` (`coordinator.py`): records without an `"imei"` field
are skipped; later records with the same key overwrite earlier ones. -/
def buildDevices (devices : List DRec) : List (String × DRec) :=
  devices.foldl
    (fun m d =>
      match d.imei with
      | some s => dictInsert m s d
      | none => m)
    []

/-- The remote calls `_async_update_data` makes, abstracted as oracles:
per-page device listing, per-page task listing, company statistics. -/
structure Api where
  fetchDevices : Nat → Except FotaError PageResult
  fetchTasks : Nat → Except FotaError TaskPage
  fetchStats : Except FotaError Nat

/-- The two errors `_async_update_data` can raise: `ConfigEntryAuthFailed`
(from the `except TeltonikaFotaAuthError` clause) and `UpdateFailed`
(from the `except TeltonikaFotaApiError` clause). -/
inductive RefreshError where
  | configEntryAuthFailed
  | updateFailed
deriving DecidableEq

/-- The two `except` clauses of `_async_update_data`, in source order:
`TeltonikaFotaAuthError` is caught first and becomes
`ConfigEntryAuthFailed`; any other `TeltonikaFotaApiError` becomes
`UpdateFailed`. -/
def classify : FotaError → RefreshError
  | .authError _ => .configEntryAuthFailed
  | .connError _ => .updateFailed

/-- Embedding of `TeltonikaFotaCoordinator._async_update_data`
(`coordinator.py`): aggregate all device pages, build the IMEI-keyed map,
fetch page 1 of the tasks and keep its `"data"` items, fetch the company
statistics, then assign `self._data` and return the new snapshot; any
classified error aborts the round before the assignment.  The result pairs
the raised-or-returned value with the stored `self._data` after the call
(`stored` is `self._data` before it); `none` only when the pagination fuel
runs out. -/
def update_data (api : Api) (fuel : Nat) (stored : TeltonikaFotaData) :
    Option (Except RefreshError TeltonikaFotaData × TeltonikaFotaData) :=
  match (async_get_all_devices api.fetchDevices fuel).2 with
  | none => none
  | some (.error e) => some (.error (classify e), stored)
  | some (.ok devices) =>
    match api.fetchTasks 1 with
    | .error e => some (.error (classify e), stored)
    | .ok tp =>
      match api.fetchStats with
      | .error e => some (.error (classify e), stored)
      | .ok stats =>
        let d : TeltonikaFotaData :=
          { devices := buildDevices devices
            tasks := tp.data.getD []
            company_stats := stats }
        some (.ok d, d)

/-- Result of a service handler (`services.py`): the remote
acknowledgement, or the remote error wrapped into `HomeAssistantError`. -/
inductive ServiceResult where
  | ok (ack : Nat)
  | homeAssistantError (cause : FotaError)
deriving DecidableEq

/-- The `async_cancel_task` service handler (`services.py`): one remote
call whose error is wrapped into `HomeAssistantError`; paired with the
number of `async_request_refresh` calls the handler makes — it makes
none. -/
def service_cancel_task (remote : Except FotaError Nat) :
    Nat × ServiceResult :=
  match remote with
  | .ok r => (0, .ok r)
  | .error e => (0, .homeAssistantError e)

/-- The `async_bulk_cancel_tasks` service handler (`services.py`): same
shape as `service_cancel_task`; no `async_request_refresh` call. -/
def service_bulk_cancel_tasks (remote : Except FotaError Nat) :
    Nat × ServiceResult :=
  match remote with
  | .ok r => (0, .ok r)
  | .error e => (0, .homeAssistantError e)

/-- The `async_create_firmware_task` service handler (`services.py`): one
remote call, wrapped error; no `async_request_refresh` call. -/
def service_create_firmware_task (remote : Except FotaError Nat) :
    Nat × ServiceResult :=
  match remote with
  | .ok r => (0, .ok r)
  | .error e => (0, .homeAssistantError e)

/-- The `async_create_config_task` service handler (`services.py`): one
remote call, wrapped error; no `async_request_refresh` call. -/
def service_create_config_task (remote : Except FotaError Nat) :
    Nat × ServiceResult :=
  match remote with
  | .ok r => (0, .ok r)
  | .error e => (0, .homeAssistantError e)

/-- The `async_retry_failed_tasks` service handler (`services.py`): one
remote call, wrapped error; no `async_request_refresh` call. -/
def service_retry_failed_tasks (remote : Except FotaError Nat) :
    Nat × ServiceResult :=
  match remote with
  | .ok r => (0, .ok r)
  | .error e => (0, .homeAssistantError e)

/-- One entry of a device's `task_queue` list, as the button reads it:
`t.get("id")`, which may be absent. -/
structure QTask where
  id : Option Nat
deriving DecidableEq

/-- The Python value found under a device's `"task_queue"` key: absent
(`device.get` returned `None`), the string `"Empty"`, a list of task
entries, or some other value with the given truthiness. -/
inductive TaskQueueVal where
  | missing
  | emptyMarker
  | listVal (ts : List QTask)
  | otherVal (truthy : Bool)
deriving DecidableEq

/-- The comprehension of the press handler extracting the ids to cancel:
the ids that are present and truthy (`0` is falsy in Python, so a zero id
is dropped). -/
def presentIds (ts : List QTask) : List Nat :=
  ts.filterMap fun t =>
    match t.id with
    | some n => if n = 0 then none else some n
    | none => none

/-- Embedding of `TeltonikaFotaCancelTasksButton.async_press`
(`button.py`): return unchanged when the queue is falsy (absent or an
empty list) or equals `"Empty"`; for a list, extract the truthy ids and,
when there is at least one, submit one bulk cancel and on its success
request one refresh, re-raising its failure; any non-list value falls
through with no call.  Returns the bulk-cancel submissions made, the
number of `async_request_refresh` calls, and the re-raised error if
any. -/
def async_press (tq : TaskQueueVal)
    (remote : List Nat → Except FotaError Nat) :
    List (List Nat) × Nat × Option FotaError :=
  match tq with
  | .missing => ([], 0, none)
  | .emptyMarker => ([], 0, none)
  | .otherVal _ => ([], 0, none)
  | .listVal ts =>
    if ts.isEmpty then ([], 0, none)
    else
      let ids := presentIds ts
      if ids.isEmpty then ([], 0, none)
      else
        match remote ids with
        | .ok _ => ([ids], 1, none)
        | .error e => ([ids], 0, some e)

lemma getAllDevicesAux_complete
    (fetch : Nat → Except FotaError PageResult) (N : Nat)
    (items : Nat → List DRec)
    (hf : ∀ i, 1 ≤ i → i ≤ N → fetch i = .ok ⟨some (items i), some N⟩) :
    ∀ n p acc fuel, p + n = N → 1 ≤ p → n + 1 ≤ fuel →
      getAllDevicesAux fetch fuel p acc =
        (List.range' p (n + 1),
         some (.ok (acc ++ (List.range' p (n + 1)).flatMap items))) := by
  intro n
  induction n with
  | zero =>
    intro p acc fuel hpn hp hfuel
    obtain ⟨f, rfl⟩ : ∃ f, fuel = f + 1 := ⟨fuel - 1, by omega⟩
    have hf' := hf p hp (by omega)
    have hNp : N ≤ p := by omega
    simp [getAllDevicesAux, hf', hNp, List.range'_one]
  | succ n ih =>
    intro p acc fuel hpn hp hfuel
    obtain ⟨f, rfl⟩ : ∃ f, fuel = f + 1 := ⟨fuel - 1, by omega⟩
    have hf' := hf p hp (by omega)
    have hNp : ¬ N ≤ p := by omega
    have ih' := ih (p + 1) (acc ++ items p) f (by omega) (by omega) (by omega)
    simp only [getAllDevicesAux, hf', hNp, if_false, Option.getD_some]
    rw [ih']
    simp [List.range'_succ, List.flatMap_cons]

lemma flatMap_const_length (items : Nat → List DRec) (K : Nat) :
    ∀ l : List Nat, (∀ i ∈ l, (items i).length = K) →
      (l.flatMap items).length = l.length * K := by
  intro l
  induction l with
  | nil => simp
  | cons a l ih =>
    intro h
    have ha := h a (by simp)
    have hl := ih fun i hi => h i (by simp [hi])
    simp [List.flatMap_cons, ha, hl, Nat.add_mul, Nat.add_comm]

/-- C4: when every page `1 ≤ i ≤ N` answers with `K` items and reports
last page `N`, `async_get_all_devices` requests exactly the pages
`1, …, N` once each and in order, returns the pages' items concatenated in
page order — `N * K` items in total — and makes at least one page request
(so also when the collection is empty, i.e. `K = 0`). -/
theorem C4_pagination_complete
    (fetch : Nat → Except FotaError PageResult) (N K : Nat)
    (items : Nat → List DRec) (hN : 1 ≤ N)
    (hf : ∀ i, 1 ≤ i → i ≤ N → fetch i = .ok ⟨some (items i), some N⟩)
    (hK : ∀ i, 1 ≤ i → i ≤ N → (items i).length = K) :
    async_get_all_devices fetch N =
      (List.range' 1 N, some (.ok ((List.range' 1 N).flatMap items))) ∧
    ((List.range' 1 N).flatMap items).length = N * K ∧
    (async_get_all_devices fetch N).1 ≠ [] := by
  have hmain : async_get_all_devices fetch N =
      (List.range' 1 N, some (.ok ((List.range' 1 N).flatMap items))) := by
    have h := getAllDevicesAux_complete fetch N items hf (N - 1) 1 [] N
      (by omega) le_rfl (by omega)
    have hN1 : N - 1 + 1 = N := by omega
    rw [hN1] at h
    simpa [async_get_all_devices] using h
  refine ⟨hmain, ?_, ?_⟩
  · rw [flatMap_const_length items K _ ?_]
    · simp [Nat.mul_comm]
    · intro i hi
      rw [List.mem_range'_1] at hi
      exact hK i hi.1 (by omega)
  · rw [hmain]
    simp [List.range'_eq_nil]
    omega

/-- Witness for C4 at a concrete two-page sequence with one item per
page. -/
theorem C4_pagination_complete_witness :
    async_get_all_devices
        (fun i => .ok ⟨some [⟨some (toString i), 0⟩], some 2⟩) 2 =
      (List.range' 1 2,
       some (.ok ((List.range' 1 2).flatMap
          fun i => [(⟨some (toString i), 0⟩ : DRec)]))) ∧
    ((List.range' 1 2).flatMap
        fun i => [(⟨some (toString i), 0⟩ : DRec)]).length = 2 * 1 ∧
    (async_get_all_devices
        (fun i => .ok ⟨some [⟨some (toString i), 0⟩], some 2⟩) 2).1 ≠ [] :=
  C4_pagination_complete _ 2 1 _ (by decide)
    (fun _ _ _ => rfl) (fun _ _ _ => rfl)

lemma getAllDevicesAux_error
    (fetch : Nat → Except FotaError PageResult) (M : Nat) (e : FotaError)
    (hok : ∀ i, 1 ≤ i → i < M → ∃ r, fetch i = .ok r ∧ i < r.lastPage.getD 1)
    (herr : fetch M = .error e) :
    ∀ n p acc fuel, p + n = M → 1 ≤ p → n + 1 ≤ fuel →
      (getAllDevicesAux fetch fuel p acc).2 = some (.error e) := by
  intro n
  induction n with
  | zero =>
    intro p acc fuel hpn hp hfuel
    obtain ⟨f, rfl⟩ : ∃ f, fuel = f + 1 := ⟨fuel - 1, by omega⟩
    have hpM : p = M := by omega
    subst hpM
    simp [getAllDevicesAux, herr]
  | succ n ih =>
    intro p acc fuel hpn hp hfuel
    obtain ⟨f, rfl⟩ : ∃ f, fuel = f + 1 := ⟨fuel - 1, by omega⟩
    obtain ⟨r, hr, hlt⟩ := hok p hp (by omega)
    have hcond : ¬ r.lastPage.getD 1 ≤ p := by omega
    simp only [getAllDevicesAux, hr, hcond, if_false]
    exact ih (p + 1) (acc ++ r.data.getD []) f (by omega) (by omega)
      (by omega)

/-- C5: if the pages before `M` all succeed and keep the loop advancing
and page `M` fails with `e`, the aggregator's outcome is exactly the error
`e` — the items already collected from pages `1 … M-1` are discarded and no
partial collection is returned. -/
theorem C5_pagination_atomic_on_failure
    (fetch : Nat → Except FotaError PageResult) (M fuel : Nat)
    (e : FotaError) (hM : 1 ≤ M) (hfuel : M ≤ fuel)
    (hok : ∀ i, 1 ≤ i → i < M → ∃ r, fetch i = .ok r ∧ i < r.lastPage.getD 1)
    (herr : fetch M = .error e) :
    (async_get_all_devices fetch fuel).2 = some (.error e) :=
  getAllDevicesAux_error fetch M e hok herr (M - 1) 1 [] fuel (by omega)
    le_rfl (by omega)

/-- Witness for C5: page 1 succeeds pointing at two pages, page 2 fails. -/
theorem C5_pagination_atomic_on_failure_witness :
    (async_get_all_devices
        (fun i =>
          if i = 1 then .ok ⟨some [⟨some "a", 0⟩], some 2⟩
          else .error (.connError "boom")) 2).2 =
      some (.error (.connError "boom")) :=
  C5_pagination_atomic_on_failure _ 2 2 _ (by decide) le_rfl
    (fun i h1 h2 => ⟨⟨some [⟨some "a", 0⟩], some 2⟩,
      by interval_cases i; simp⟩)
    rfl

lemma getAllDevicesAux_stops
    (fetch : Nat → Except FotaError PageResult) (M : Nat) (r : PageResult)
    (hok : ∀ i, 1 ≤ i → i < M → ∃ ri, fetch i = .ok ri ∧ i < ri.lastPage.getD 1)
    (hmal : fetch M = .ok r) (hnone : r.lastPage = none) :
    ∀ n p acc fuel, p + n = M → 1 ≤ p → n + 1 ≤ fuel →
      ∃ res, getAllDevicesAux fetch fuel p acc =
        (List.range' p (n + 1), some (.ok res)) := by
  intro n
  induction n with
  | zero =>
    intro p acc fuel hpn hp hfuel
    obtain ⟨f, rfl⟩ : ∃ f, fuel = f + 1 := ⟨fuel - 1, by omega⟩
    have hpM : p = M := by omega
    subst hpM
    have hcond : r.lastPage.getD 1 ≤ p := by simp [hnone]; omega
    exact ⟨acc ++ r.data.getD [],
      by simp [getAllDevicesAux, hmal, hcond, List.range'_one]⟩
  | succ n ih =>
    intro p acc fuel hpn hp hfuel
    obtain ⟨f, rfl⟩ : ∃ f, fuel = f + 1 := ⟨fuel - 1, by omega⟩
    obtain ⟨ri, hr, hlt⟩ := hok p hp (by omega)
    have hcond : ¬ ri.lastPage.getD 1 ≤ p := by omega
    obtain ⟨res, hres⟩ := ih (p + 1) (acc ++ ri.data.getD []) f (by omega)
      (by omega) (by omega)
    refine ⟨res, ?_⟩
    simp only [getAllDevicesAux, hr, hcond, if_false]
    rw [hres]
    simp [List.range'_succ]

/-- C10: if the pages before `M` keep the loop advancing and page `M`
answers successfully but without a `meta.last_page` value, the aggregator
treats the last page as `1`, so it stops right after page `M` — the pages
requested are exactly `1 … M` — and returns a successful (silently
truncated) collection instead of raising; this holds at any page `M`, not
only page 1. -/
theorem C10_missing_meta_truncates
    (fetch : Nat → Except FotaError PageResult) (M fuel : Nat)
    (r : PageResult) (hM : 1 ≤ M) (hfuel : M ≤ fuel)
    (hok : ∀ i, 1 ≤ i → i < M → ∃ ri, fetch i = .ok ri ∧ i < ri.lastPage.getD 1)
    (hmal : fetch M = .ok r) (hnone : r.lastPage = none) :
    ∃ res, async_get_all_devices fetch fuel =
      (List.range' 1 M, some (.ok res)) := by
  have h := getAllDevicesAux_stops fetch M r hok hmal hnone (M - 1) 1 [] fuel
    (by omega) le_rfl (by omega)
  have hM1 : M - 1 + 1 = M := by omega
  rw [hM1] at h
  exact h

/-- Witness for C10: page 2 succeeds but carries no pagination metadata,
so the aggregation stops at page 2 although more pages could exist. -/
theorem C10_missing_meta_truncates_witness :
    ∃ res, async_get_all_devices
        (fun i =>
          if i = 1 then .ok ⟨some [⟨some "a", 0⟩], some 5⟩
          else .ok ⟨some [⟨some "b", 0⟩], none⟩) 2 =
      (List.range' 1 2, some (.ok res)) :=
  C10_missing_meta_truncates _ 2 2 ⟨some [⟨some "b", 0⟩], none⟩ (by decide)
    le_rfl
    (fun i h1 h2 => ⟨⟨some [⟨some "a", 0⟩], some 5⟩,
      by interval_cases i; simp⟩)
    rfl rfl

lemma update_data_cases (api : Api) (fuel : Nat) (stored : TeltonikaFotaData)
    (res : Except RefreshError TeltonikaFotaData × TeltonikaFotaData)
    (h : update_data api fuel stored = some res) :
    (∃ e, res = (.error (classify e), stored)) ∨
    (∃ ds tp stats,
      (async_get_all_devices api.fetchDevices fuel).2 = some (.ok ds) ∧
      api.fetchTasks 1 = .ok tp ∧ api.fetchStats = .ok stats ∧
      res = (.ok ⟨buildDevices ds, tp.data.getD [], stats⟩,
             ⟨buildDevices ds, tp.data.getD [], stats⟩)) := by
  unfold update_data at h
  rcases hdev : (async_get_all_devices api.fetchDevices fuel).2 with _ | dres
  · rw [hdev] at h; cases h
  · rw [hdev] at h
    rcases dres with e | ds
    · simp only [Option.some.injEq] at h
      exact Or.inl ⟨e, h.symm⟩
    · rcases ht : api.fetchTasks 1 with e | tp
      · rw [ht] at h
        simp only [Option.some.injEq] at h
        exact Or.inl ⟨e, h.symm⟩
      · rw [ht] at h
        rcases hs : api.fetchStats with e | stats
        · rw [hs] at h
          simp only [Option.some.injEq] at h
          exact Or.inl ⟨e, h.symm⟩
        · rw [hs] at h
          simp only [Option.some.injEq] at h
          exact Or.inr ⟨ds, tp, stats, rfl, rfl, rfl, h.symm⟩

/-- C1: if the round's failing remote call — device aggregation, task
fetch, or statistics fetch, whichever raises — raises `e`, then
`_async_update_data` raises `classify e` and leaves `self._data`
untouched; a `TeltonikaFotaAuthError` becomes `ConfigEntryAuthFailed` and
any other `TeltonikaFotaApiError` becomes `UpdateFailed`. -/
theorem C1_refresh_error_classification (api : Api) (fuel : Nat)
    (stored : TeltonikaFotaData) (e : FotaError)
    (h : (async_get_all_devices api.fetchDevices fuel).2 = some (.error e)
      ∨ (∃ ds, (async_get_all_devices api.fetchDevices fuel).2 = some (.ok ds)
          ∧ api.fetchTasks 1 = .error e)
      ∨ (∃ ds tp,
          (async_get_all_devices api.fetchDevices fuel).2 = some (.ok ds)
          ∧ api.fetchTasks 1 = .ok tp ∧ api.fetchStats = .error e)) :
    update_data api fuel stored = some (.error (classify e), stored)
    ∧ (∀ m, e = .authError m →
        update_data api fuel stored =
          some (.error .configEntryAuthFailed, stored))
    ∧ (∀ m, e = .connError m →
        update_data api fuel stored = some (.error .updateFailed, stored)) := by
  have hmain : update_data api fuel stored =
      some (.error (classify e), stored) := by
    rcases h with h | ⟨ds, h1, h2⟩ | ⟨ds, tp, h1, h2, h3⟩
    · simp [update_data, h]
    · simp [update_data, h1, h2]
    · simp [update_data, h1, h2, h3]
  refine ⟨hmain, ?_, ?_⟩
  · rintro m rfl
    simpa [classify] using hmain
  · rintro m rfl
    simpa [classify] using hmain

/-- Witness for C1: the task fetch fails with an authentication error;
the refresh raises `ConfigEntryAuthFailed` and the stored snapshot is
unchanged. -/
theorem C1_refresh_error_classification_witness :
    update_data
        ⟨fun _ => .ok ⟨some [], some 1⟩,
         fun _ => .error (.authError "t"), .ok 0⟩ 1 ⟨[], [], 7⟩ =
      some (.error (classify (.authError "t")), ⟨[], [], 7⟩)
    ∧ update_data
        ⟨fun _ => .ok ⟨some [], some 1⟩,
         fun _ => .error (.authError "t"), .ok 0⟩ 1 ⟨[], [], 7⟩ =
      some (.error .configEntryAuthFailed, ⟨[], [], 7⟩) :=
  ⟨(C1_refresh_error_classification
      ⟨fun _ => .ok ⟨some [], some 1⟩,
       fun _ => .error (.authError "t"), .ok 0⟩ 1 ⟨[], [], 7⟩ _
      (Or.inr (Or.inl ⟨[], rfl, rfl⟩))).1,
   (C1_refresh_error_classification
      ⟨fun _ => .ok ⟨some [], some 1⟩,
       fun _ => .error (.authError "t"), .ok 0⟩ 1 ⟨[], [], 7⟩ _
      (Or.inr (Or.inl ⟨[], rfl, rfl⟩))).2.1 "t" rfl⟩

/-- C2: a refresh round either fails and leaves the stored snapshot
exactly as it was, or succeeds and installs a snapshot built entirely from
that round's fetches — never a mixture of old and new fields. -/
theorem C2_snapshot_atomicity (api : Api) (fuel : Nat)
    (stored : TeltonikaFotaData)
    (out : Except RefreshError TeltonikaFotaData) (st' : TeltonikaFotaData)
    (h : update_data api fuel stored = some (out, st')) :
    (∀ e, out = .error e → st' = stored) ∧
    (∀ d, out = .ok d → st' = d ∧
      ∃ ds tp stats,
        (async_get_all_devices api.fetchDevices fuel).2 = some (.ok ds) ∧
        api.fetchTasks 1 = .ok tp ∧ api.fetchStats = .ok stats ∧
        d = ⟨buildDevices ds, tp.data.getD [], stats⟩) := by
  rcases update_data_cases api fuel stored _ h with
    ⟨e, he⟩ | ⟨ds, tp, stats, h1, h2, h3, he⟩
  · obtain ⟨he1, he2⟩ := Prod.mk.injEq .. ▸ he
    constructor
    · intro _ _; exact he2
    · intro d hd; rw [he1] at hd; cases hd
  · obtain ⟨he1, he2⟩ := Prod.mk.injEq .. ▸ he
    constructor
    · intro e' he'; rw [he1] at he'; cases he'
    · intro d hd
      rw [he1] at hd
      injection hd with hd
      subst hd
      exact ⟨he2, ds, tp, stats, h1, h2, h3, rfl⟩

/-- Witness for C2 at a successful concrete round: the installed snapshot
is the one built from the round's fetches. -/
theorem C2_snapshot_atomicity_witness :
    (⟨[("A", ⟨some "A", 5⟩)], [7], 3⟩ : TeltonikaFotaData) =
      ⟨[("A", ⟨some "A", 5⟩)], [7], 3⟩ ∧
    ∃ ds tp stats,
      (async_get_all_devices
        (Api.mk (fun _ => .ok ⟨some [⟨some "A", 5⟩], some 1⟩)
          (fun _ => .ok ⟨some [7], none⟩) (.ok 3)).fetchDevices 1).2 =
        some (.ok ds) ∧
      (Api.mk (fun _ => .ok ⟨some [⟨some "A", 5⟩], some 1⟩)
          (fun _ => .ok ⟨some [7], none⟩) (.ok 3)).fetchTasks 1 = .ok tp ∧
      (Api.mk (fun _ => .ok ⟨some [⟨some "A", 5⟩], some 1⟩)
          (fun _ => .ok ⟨some [7], none⟩) (.ok 3)).fetchStats = .ok stats ∧
      (⟨[("A", ⟨some "A", 5⟩)], [7], 3⟩ : TeltonikaFotaData) =
        ⟨buildDevices ds, tp.data.getD [], stats⟩ :=
  (C2_snapshot_atomicity
    ⟨fun _ => .ok ⟨some [⟨some "A", 5⟩], some 1⟩,
     fun _ => .ok ⟨some [7], none⟩, .ok 3⟩ 1 ⟨[], [], 0⟩ _ _ rfl).2 _ rfl

lemma dictInsert_keys (m : List (String × DRec)) (k : String) (v : DRec) :
    (dictInsert m k v).map Prod.fst =
      if m.any (fun p => p.1 = k) then m.map Prod.fst
      else m.map Prod.fst ++ [k] := by
  unfold dictInsert
  split
  · rw [List.map_map]
    apply List.map_congr_left
    intro p _
    by_cases hp : p.1 = k
    · simp [hp]
    · simp [hp]
  · simp

lemma dictInsert_nodupKeys (m : List (String × DRec)) (k : String) (v : DRec)
    (h : (m.map Prod.fst).Nodup) :
    ((dictInsert m k v).map Prod.fst).Nodup := by
  rw [dictInsert_keys]
  split
  · exact h
  next hany =>
    simp only [List.any_eq_true, decide_eq_true_eq] at hany
    push_neg at hany
    have hk : k ∉ m.map Prod.fst := by
      intro hmem
      obtain ⟨p, hp, hpk⟩ := List.mem_map.1 hmem
      exact hany p hp hpk
    simp [List.nodup_append, h, hk]

lemma dictInsert_hasKey (m : List (String × DRec)) (k k' : String) (v : DRec) :
    (∃ v', (k', v') ∈ dictInsert m k v) ↔ (∃ v', (k', v') ∈ m) ∨ k' = k := by
  unfold dictInsert
  split
  next hany =>
    simp only [List.any_eq_true, decide_eq_true_eq] at hany
    obtain ⟨q, hq, hqk⟩ := hany
    constructor
    · rintro ⟨v', hv'⟩
      obtain ⟨p, hp, hpe⟩ := List.mem_map.1 hv'
      by_cases hp1 : p.1 = k
      · rw [if_pos hp1] at hpe
        exact Or.inr (congrArg Prod.fst hpe).symm
      · rw [if_neg hp1] at hpe
        exact Or.inl ⟨v', hpe ▸ hp⟩
    · rintro (⟨v', hv'⟩ | rfl)
      · by_cases h1 : k' = k
        · subst h1
          exact ⟨v, List.mem_map.2 ⟨q, hq, by simp [hqk]⟩⟩
        · exact ⟨v', List.mem_map.2 ⟨(k', v'), hv', by simp [h1]⟩⟩
      · exact ⟨v, List.mem_map.2 ⟨q, hq, by simp [hqk]⟩⟩
  next hany =>
    constructor
    · rintro ⟨v', hv'⟩
      rcases List.mem_append.1 hv' with h1 | h1
      · exact Or.inl ⟨v', h1⟩
      · simp only [List.mem_singleton, Prod.mk.injEq] at h1
        exact Or.inr h1.1
    · rintro (⟨v', hv'⟩ | rfl)
      · exact ⟨v', List.mem_append_left _ hv'⟩
      · exact ⟨v, List.mem_append_right _ (by simp)⟩

lemma buildDevices_go_nodup :
    ∀ (l : List DRec) (m : List (String × DRec)),
      (m.map Prod.fst).Nodup →
      ((l.foldl
          (fun m d =>
            match d.imei with
            | some s => dictInsert m s d
            | none => m)
          m).map Prod.fst).Nodup := by
  intro l
  induction l with
  | nil =>
    intro m h
    simpa using h
  | cons d l ih =>
    intro m h
    rw [List.foldl_cons]
    cases hd : d.imei with
    | none =>
      simp only [hd]
      exact ih m h
    | some s =>
      simp only [hd]
      exact ih _ (dictInsert_nodupKeys m s d h)

lemma buildDevices_go_hasKey :
    ∀ (l : List DRec) (m : List (String × DRec)) (k : String),
      (∃ v, (k, v) ∈ l.foldl
          (fun m d =>
            match d.imei with
            | some s => dictInsert m s d
            | none => m)
          m) ↔
        (∃ v, (k, v) ∈ m) ∨ ∃ r ∈ l, r.imei = some k := by
  intro l
  induction l with
  | nil =>
    intro m k
    simp
  | cons d l ih =>
    intro m k
    rw [List.foldl_cons]
    cases hd : d.imei with
    | none =>
      simp only [hd]
      rw [ih]
      simp [hd]
    | some s =>
      simp only [hd]
      rw [ih _ k, dictInsert_hasKey]
      simp only [List.mem_cons, exists_eq_or_imp, hd, Option.some.injEq]
      constructor
      · rintro ((h | rfl) | h)
        · exact Or.inl h
        · exact Or.inr (Or.inl rfl)
        · exact Or.inr (Or.inr h)
      · rintro (h | (rfl | h))
        · exact Or.inl (Or.inl h)
        · exact Or.inl (Or.inr rfl)
        · exact Or.inr h

lemma buildDevices_nodup (l : List DRec) :
    ((buildDevices l).map Prod.fst).Nodup :=
  buildDevices_go_nodup l [] (by simp)

lemma buildDevices_hasKey (l : List DRec) (k : String) :
    (∃ v, (k, v) ∈ buildDevices l) ↔ ∃ r ∈ l, r.imei = some k := by
  rw [buildDevices, buildDevices_go_hasKey]
  simp

/-- C6: when every fetch of a round succeeds, the refresh succeeds — a
record without an `"imei"` field is dropped, never aborting the round —
and the installed snapshot's device map has pairwise-distinct keys, a key
being present exactly when some fetched record carries that identifier. -/
theorem C6_device_map_unique_keys (api : Api) (fuel : Nat)
    (stored : TeltonikaFotaData) (ds : List DRec) (tp : TaskPage)
    (stats : Nat)
    (hdev : (async_get_all_devices api.fetchDevices fuel).2 = some (.ok ds))
    (htasks : api.fetchTasks 1 = .ok tp)
    (hstats : api.fetchStats = .ok stats) :
    ∃ d, update_data api fuel stored = some (.ok d, d) ∧
      ((d.devices.map Prod.fst).Nodup) ∧
      (∀ k, (∃ v, (k, v) ∈ d.devices) ↔ ∃ r ∈ ds, r.imei = some k) := by
  refine ⟨⟨buildDevices ds, tp.data.getD [], stats⟩, ?_, ?_, ?_⟩
  · simp [update_data, hdev, htasks, hstats]
  · exact buildDevices_nodup ds
  · intro k
    exact buildDevices_hasKey ds k

/-- Witness for C6: three fetched records — two sharing the identifier
`"A"`, one lacking it — give a map with the single key `"A"`. -/
theorem C6_device_map_unique_keys_witness :
    ∃ d, update_data
        ⟨fun _ => .ok ⟨some [⟨some "A", 1⟩, ⟨none, 2⟩, ⟨some "A", 3⟩], some 1⟩,
         fun _ => .ok ⟨some [], none⟩, .ok 0⟩ 1 ⟨[], [], 0⟩ =
      some (.ok d, d) ∧
      ((d.devices.map Prod.fst).Nodup) ∧
      (∀ k, (∃ v, (k, v) ∈ d.devices) ↔
        ∃ r ∈ [(⟨some "A", 1⟩ : DRec), ⟨none, 2⟩, ⟨some "A", 3⟩],
          r.imei = some k) :=
  C6_device_map_unique_keys _ 1 _ _ _ _ rfl rfl rfl

/-- C7: the refresh round reads the task listing only at page 1 — two
clients agreeing there (and on devices and statistics) produce identical
rounds, whatever the task listing reports elsewhere or as its last page —
the installed task list is exactly that page's `"data"` items, and the
installed device map is built from the full multi-page aggregation. -/
theorem C7_tasks_first_page_only (api api' : Api) (fuel : Nat)
    (stored : TeltonikaFotaData)
    (hdev : api'.fetchDevices = api.fetchDevices)
    (ht1 : api'.fetchTasks 1 = api.fetchTasks 1)
    (hst : api'.fetchStats = api.fetchStats) :
    update_data api' fuel stored = update_data api fuel stored ∧
    (∀ tp d st', api.fetchTasks 1 = .ok tp →
      update_data api fuel stored = some (.ok d, st') →
      d.tasks = tp.data.getD []) ∧
    (∀ ds d st',
      (async_get_all_devices api.fetchDevices fuel).2 = some (.ok ds) →
      update_data api fuel stored = some (.ok d, st') →
      d.devices = buildDevices ds) := by
  refine ⟨?_, ?_, ?_⟩
  · unfold update_data
    rw [hdev, ht1, hst]
  · intro tp d st' h1 h2
    rcases update_data_cases api fuel stored _ h2 with
      ⟨e, he⟩ | ⟨ds, tp', stats, g1, g2, g3, he⟩
    · obtain ⟨he1, _⟩ := Prod.mk.injEq .. ▸ he
      cases he1
    · obtain ⟨he1, _⟩ := Prod.mk.injEq .. ▸ he
      injection he1 with he1
      rw [h1] at g2
      injection g2 with g2
      rw [he1, g2]
  · intro ds d st' h1 h2
    rcases update_data_cases api fuel stored _ h2 with
      ⟨e, he⟩ | ⟨ds', tp', stats, g1, g2, g3, he⟩
    · obtain ⟨he1, _⟩ := Prod.mk.injEq .. ▸ he
      cases he1
    · obtain ⟨he1, _⟩ := Prod.mk.injEq .. ▸ he
      injection he1 with he1
      rw [h1] at g1
      injection g1 with g1
      injection g1 with g1
      rw [he1, g1]

/-- Witness for C7: the two clients disagree on the task listing at page 2
(and the listing reports 5 pages), yet the rounds coincide; the installed
task list is page 1's items and the device map is the aggregation's. -/
theorem C7_tasks_first_page_only_witness :
    update_data
        ⟨fun _ => .ok ⟨some [⟨some "A", 1⟩], some 1⟩,
         fun p => if p = 1 then .ok ⟨some [9], some 5⟩
           else .error (.connError "other page"), .ok 0⟩ 1 ⟨[], [], 0⟩ =
      update_data
        ⟨fun _ => .ok ⟨some [⟨some "A", 1⟩], some 1⟩,
         fun _ => .ok ⟨some [9], some 5⟩, .ok 0⟩ 1 ⟨[], [], 0⟩ ∧
    (∀ tp d st',
      (Api.mk (fun _ => .ok ⟨some [⟨some "A", 1⟩], some 1⟩)
        (fun _ => .ok ⟨some [9], some 5⟩) (.ok 0)).fetchTasks 1 = .ok tp →
      update_data
        ⟨fun _ => .ok ⟨some [⟨some "A", 1⟩], some 1⟩,
         fun _ => .ok ⟨some [9], some 5⟩, .ok 0⟩ 1 ⟨[], [], 0⟩ =
        some (.ok d, st') →
      d.tasks = tp.data.getD []) ∧
    (∀ ds d st',
      (async_get_all_devices
        (Api.mk (fun _ => .ok ⟨some [⟨some "A", 1⟩], some 1⟩)
          (fun _ => .ok ⟨some [9], some 5⟩) (.ok 0)).fetchDevices 1).2 =
        some (.ok ds) →
      update_data
        ⟨fun _ => .ok ⟨some [⟨some "A", 1⟩], some 1⟩,
         fun _ => .ok ⟨some [9], some 5⟩, .ok 0⟩ 1 ⟨[], [], 0⟩ =
        some (.ok d, st') →
      d.devices = buildDevices ds) :=
  C7_tasks_first_page_only _ _ 1 _ rfl rfl rfl

/-- C9: the claim states the taxonomy the code intends — its exception
hierarchy exists to classify every failure — but the code's only handler
is `except aiohttp.ClientError`, so two failure paths escape it
unclassified, contradicting the claim: a 200 response whose body fails to
parse (its `json.JSONDecodeError` is a `ValueError`) and an expired
`ClientTimeout` (`asyncio.TimeoutError`).  Evaluating `_request` at those
failing inputs yields unclassified errors, while the caught paths — a 401
response, an error status, a transport error — are classified as the
claim describes. -/
theorem C9_request_unclassified_escape :
    request_ (.response 200 (.jsonDecodeError "Expecting value")) =
      .error (.unclassified "JSONDecodeError: Expecting value") ∧
    request_ (.timeout "total timeout 30 s") =
      .error (.unclassified "TimeoutError: total timeout 30 s") ∧
    request_ (.response 401 (.ok 0)) =
      .error (.classified (.authError "Invalid or expired API token")) ∧
    request_ (.response 500 (.ok 0)) =
      .error (.classified (.connError "Connection error: HTTP status error")) ∧
    request_ (.clientError "net down") =
      .error (.classified (.connError "Connection error: net down")) :=
  ⟨rfl, rfl, rfl, rfl, rfl⟩

/-- Counterexample to C3 as stated: the `cancel_task` service handler's
remote call succeeds, yet the handler makes zero
`async_request_refresh` calls, not the one the claim demands. -/
theorem C3_counterexample :
    (service_cancel_task (.ok 0)).2 = .ok 0 ∧
    (service_cancel_task (.ok 0)).1 = 0 ∧
    (service_cancel_task (.ok 0)).1 ≠ 1 := by
  decide

/-- C3 amended: the five service-layer mutation handlers make zero
`async_request_refresh` calls whether the remote call succeeds or fails;
only the cancel-all button couples to the coordinator — exactly one
refresh request when its bulk cancel succeeds, zero when it fails. -/
theorem C3_amended_refresh_coupling (r : Except FotaError Nat)
    (ts : List QTask) (remote : List Nat → Except FotaError Nat) :
    (service_cancel_task r).1 = 0 ∧
    (service_bulk_cancel_tasks r).1 = 0 ∧
    (service_create_firmware_task r).1 = 0 ∧
    (service_create_config_task r).1 = 0 ∧
    (service_retry_failed_tasks r).1 = 0 ∧
    (∀ a, presentIds ts ≠ [] → remote (presentIds ts) = .ok a →
      (async_press (.listVal ts) remote).2.1 = 1) ∧
    (∀ e, remote (presentIds ts) = .error e →
      (async_press (.listVal ts) remote).2.1 = 0) := by
  refine ⟨?_, ?_, ?_, ?_, ?_, ?_, ?_⟩
  · cases r <;> rfl
  · cases r <;> rfl
  · cases r <;> rfl
  · cases r <;> rfl
  · cases r <;> rfl
  · intro a hne hok
    have hts : ts ≠ [] := by
      intro h
      exact hne (by simp [h, presentIds])
    simp [async_press, hts, hne, hok]
  · intro e herr
    by_cases hts : ts = []
    · simp [async_press, hts]
    · by_cases hids : presentIds ts = []
      · simp [async_press, hts, hids]
      · simp [async_press, hts, hids, herr]

/-- Witness for C3's amended claim: concrete success and failure runs of
the handlers and the button. -/
theorem C3_amended_refresh_coupling_witness :
    (service_cancel_task (.ok 3)).1 = 0 ∧
    (service_bulk_cancel_tasks (.ok 3)).1 = 0 ∧
    (service_create_firmware_task (.ok 3)).1 = 0 ∧
    (service_create_config_task (.ok 3)).1 = 0 ∧
    (service_retry_failed_tasks (.ok 3)).1 = 0 ∧
    (async_press (.listVal [⟨some 5⟩]) (fun _ => .ok 0)).2.1 = 1 ∧
    (async_press (.listVal [⟨some 5⟩])
      (fun _ => .error (.connError "e"))).2.1 = 0 :=
  ⟨(C3_amended_refresh_coupling (.ok 3) [⟨some 5⟩] (fun _ => .ok 0)).1,
   (C3_amended_refresh_coupling (.ok 3) [⟨some 5⟩] (fun _ => .ok 0)).2.1,
   (C3_amended_refresh_coupling (.ok 3) [⟨some 5⟩] (fun _ => .ok 0)).2.2.1,
   (C3_amended_refresh_coupling (.ok 3) [⟨some 5⟩]
     (fun _ => .ok 0)).2.2.2.1,
   (C3_amended_refresh_coupling (.ok 3) [⟨some 5⟩]
     (fun _ => .ok 0)).2.2.2.2.1,
   (C3_amended_refresh_coupling (.ok 3) [⟨some 5⟩]
     (fun _ => .ok 0)).2.2.2.2.2.1 0 (by decide) rfl,
   (C3_amended_refresh_coupling (.ok 3) [⟨some 5⟩]
     (fun _ => .error (.connError "e"))).2.2.2.2.2.2
     (.connError "e") rfl⟩

/-- Counterexample to C8 as stated: the device's task queue is the
non-empty list `[{}]` — a single entry carrying no id — so the claim calls
for one bulk-cancel submission with exactly the extracted ids, yet the
press submits nothing at all. -/
theorem C8_counterexample :
    (async_press (.listVal [⟨none⟩]) (fun _ => .ok 0)).1 = [] ∧
    [presentIds [⟨none⟩]] ≠ ([] : List (List Nat)) := by
  decide

/-- C8 amended: a press with the queue absent, an empty list, or the
`"Empty"` marker is a no-op performing no network call; with a non-empty
list the press extracts the present (truthy) ids and, when at least one
is present, submits exactly one bulk cancel with exactly those ids; when
none is present it performs no network call. -/
theorem C8_amended_cancel_all (remote : List Nat → Except FotaError Nat)
    (ts : List QTask) :
    async_press .missing remote = ([], 0, none) ∧
    async_press (.listVal []) remote = ([], 0, none) ∧
    async_press .emptyMarker remote = ([], 0, none) ∧
    (presentIds ts ≠ [] →
      (async_press (.listVal ts) remote).1 = [presentIds ts]) ∧
    (presentIds ts = [] → (async_press (.listVal ts) remote).1 = []) := by
  refine ⟨rfl, rfl, rfl, ?_, ?_⟩
  · intro hne
    have hts : ts ≠ [] := by
      intro h
      exact hne (by simp [h, presentIds])
    cases hr : remote (presentIds ts) with
    | ok a => simp [async_press, hts, hne, hr]
    | error e => simp [async_press, hts, hne, hr]
  · intro hnil
    by_cases hts : ts = []
    · simp [async_press, hts]
    · simp [async_press, hts, hnil]

/-- Witness for C8's amended claim: an absent queue is a no-op; the queue
`[{id: 5}, {id: 0}, {}]` yields the single submission `[5]` (the zero and
missing ids are dropped); a queue with no present ids submits nothing. -/
theorem C8_amended_cancel_all_witness :
    async_press .missing (fun _ => .ok 0) = ([], 0, none) ∧
    (async_press (.listVal [⟨some 5⟩, ⟨some 0⟩, ⟨none⟩])
      (fun _ => .ok 0)).1 = [presentIds [⟨some 5⟩, ⟨some 0⟩, ⟨none⟩]] ∧
    (async_press (.listVal [⟨some 0⟩]) (fun _ => .ok 0)).1 = [] :=
  ⟨(C8_amended_cancel_all (fun _ => .ok 0) []).1,
   (C8_amended_cancel_all (fun _ => .ok 0)
     [⟨some 5⟩, ⟨some 0⟩, ⟨none⟩]).2.2.2.1 (by decide),
   (C8_amended_cancel_all (fun _ => .ok 0) [⟨some 0⟩]).2.2.2.2 (by decide)⟩

end TeltonikaFota
